import Mathlib

/-!
Verification of the SentimentPulse market-sentiment web application.

JavaScript numbers are modelled as exact rationals (`ℚ`); the numeric
literals of the source (0.35, 0.1, …) are decimal literals that TypeScript
represents exactly enough for the comparisons at issue, and the rational
model keeps every arithmetic step exact and decidable.  JS falsiness on a
number is `= 0`, on an optional object it is `Option.isNone`, and on a
string it is `= ""`.  `Math.random()` results are passed in as explicit
parameters.  Times (`Date.now()`, ISO date strings) are passed in as
explicit parameters as well: integers in milliseconds where arithmetic is
done on them, opaque strings otherwise.
-/

namespace SentimentPulse

/-- JS `Math.round`: round half toward positive infinity. -/
def jsRound (q : ℚ) : ℤ := ⌊q + 1/2⌋

/-- JS `x || 0` on a number: `0` (and `NaN`) are falsy, so the fallback
only ever replaces a falsy value by `0`; on rationals this is the
identity, written out to mirror the source. -/
def jsOrZero (q : ℚ) : ℚ := if q = 0 then 0 else q

/-- JS `String.prototype.toLowerCase` (the strings it is applied to in
this codebase are ASCII). -/
def toLowerCase (s : String) : String := String.mk (s.data.map Char.toLower)

/-- JS `String.prototype.includes`: substring containment. -/
def strIncludes (hay sub : String) : Bool := decide (sub.data <:+: hay.data)

/-! ### Data model (src/types/Asset.ts) -/

inductive AssetType
  | stock
  | crypto
deriving DecidableEq, Repr

inductive SentimentLabel
  | positive
  | negative
  | neutralLabel
deriving DecidableEq, Repr

structure NewsArticle where
  title : String
  url : String
  source : String
  publishedAt : String
  sentiment : SentimentLabel
deriving DecidableEq, Repr

structure TechnicalIndicators where
  rsi : ℚ
  macd : ℚ
  sma20 : ℚ
  sma50 : ℚ
deriving DecidableEq, Repr

structure SocialMetrics where
  twitterMentions : ℚ
  redditPosts : ℚ
  socialSentiment : ℚ
deriving DecidableEq, Repr

structure Asset where
  symbol : String
  name : String
  type : AssetType
  currentPrice : ℚ
  priceChange24h : ℚ
  volume24h : Option ℚ
  marketCap : Option ℚ
  sentimentScore : ℚ
  predictionGrowthProb : ℚ
  confidenceLevel : ℚ
  newsArticles : Option (List NewsArticle)
  technicalIndicators : Option TechnicalIndicators
  socialMetrics : Option SocialMetrics
  lastAnalyzed : Option String
deriving DecidableEq, Repr

/-! ### ForecastingEngine (src/lib/forecastingEngine.ts) -/

structure ForecastingConfig where
  sentimentWeight : ℚ
  technicalWeight : ℚ
  volumeWeight : ℚ
  socialWeight : ℚ
  timeHorizon : ℕ
deriving DecidableEq, Repr

/-- The default `ForecastingEngine.config`. -/
def defaultConfig : ForecastingConfig :=
  { sentimentWeight := 0.35
    technicalWeight := 0.30
    volumeWeight := 0.20
    socialWeight := 0.15
    timeHorizon := 7 }

inductive Direction
  | bullish
  | bearish
  | neutral
deriving DecidableEq, Repr

inductive RiskLevel
  | low
  | medium
  | high
deriving DecidableEq, Repr

/-- The per-article sentiment value used by `calculateSentimentImpact`. -/
def articleSentimentValue (article : NewsArticle) : ℚ :=
  match article.sentiment with
  | .positive => 0.3
  | .negative => -0.3
  | .neutralLabel => 0

/-- `ForecastingEngine.calculateSentimentImpact`. -/
def calculateSentimentImpact (asset : Asset) : ℚ :=
  let impact := jsOrZero asset.sentimentScore
  let impact :=
    match asset.newsArticles with
    | some articles =>
        if articles.length > 0 then
          let newsImpact := (articles.map articleSentimentValue).sum / (articles.length : ℚ)
          (impact + newsImpact) / 2
        else impact
    | none => impact
  max (-1) (min 1 impact)

/-- `ForecastingEngine.calculateTechnicalScore`.  The `rsi` and `macd`
fields are required by the `TechnicalIndicators` interface, so the
source's `!== undefined` checks always pass; the moving-average branch is
guarded by JS truthiness of `sma20` and `sma50` (nonzero). -/
def calculateTechnicalScore (asset : Asset) : ℚ :=
  match asset.technicalIndicators with
  | none => 0
  | some indicators =>
      let score : ℚ :=
        if indicators.rsi < 30 then 0.5
        else if indicators.rsi > 70 then -0.5
        else (50 - indicators.rsi) / 100
      let score := score + (if indicators.macd > 0 then 0.3 else -0.3)
      let smaBranch := indicators.sma20 ≠ 0 ∧ indicators.sma50 ≠ 0
      let score :=
        if indicators.sma20 ≠ 0 ∧ indicators.sma50 ≠ 0 then
          if asset.currentPrice > indicators.sma20 ∧ indicators.sma20 > indicators.sma50 then
            score + 0.4
          else if asset.currentPrice < indicators.sma20 ∧ indicators.sma20 < indicators.sma50 then
            score - 0.4
          else score
        else score
      let factors : ℚ := if smaBranch then 3 else 2
      if factors > 0 then score / factors else 0

/-- `ForecastingEngine.calculateVolumeScore`.  `if (!volume24h) return 0`
catches both a missing and a zero 24h volume. -/
def calculateVolumeScore (asset : Asset) : ℚ :=
  match asset.volume24h with
  | none => 0
  | some volume =>
      if volume = 0 then 0
      else
        if volume > 1000000 ∧ asset.priceChange24h > 2 then 0.4
        else if volume > 1000000 ∧ asset.priceChange24h < -2 then -0.4
        else if ¬volume > 1000000 ∧ |asset.priceChange24h| > 5 then -0.2
        else 0.1

/-- `ForecastingEngine.calculateSocialScore`.  The `SocialMetrics` fields
are required by the interface, so `socialSentiment !== undefined` always
passes and `twitterMentions || 0` / `redditPosts || 0` only replace falsy
(zero) values by zero. -/
def calculateSocialScore (asset : Asset) : ℚ :=
  match asset.socialMetrics with
  | none => 0
  | some social =>
      let score := (social.socialSentiment - 0.5) * 0.6
      let totalMentions := jsOrZero social.twitterMentions + jsOrZero social.redditPosts
      let score :=
        if totalMentions > 1000 then score + 0.2
        else if totalMentions > 100 then score + 0.1
        else score
      max (-1) (min 1 score)

/-- The weighted composite score of `ForecastingEngine.generateForecast`
(source lines 46–51). -/
def compositeScore (config : ForecastingConfig) (asset : Asset) : ℚ :=
  calculateSentimentImpact asset * config.sentimentWeight +
  calculateTechnicalScore asset * config.technicalWeight +
  calculateVolumeScore asset * config.volumeWeight +
  calculateSocialScore asset * config.socialWeight

/-- `ForecastingEngine.predictPrice`; `rand` is the `Math.random()`
sample. -/
def predictPrice (asset : Asset) (composite rand : ℚ) : ℚ :=
  let volatility : ℚ := match asset.type with | .crypto => 0.15 | .stock => 0.08
  let baseChange := composite * volatility
  let randomFactor := (rand - 0.5) * 0.05
  let momentum := asset.priceChange24h / 100 * 0.3
  let totalChange := baseChange + randomFactor + momentum
  asset.currentPrice * (1 + totalChange)

/-- `ForecastingEngine.calculateConfidence`; `scores` is the
sentiment/technical/volume/social list in object insertion order.  The
truthiness tests `if (asset.newsArticles && ...)` and
`if (asset.volume24h)` require a present, nonempty list and a present,
nonzero volume respectively. -/
def calculateConfidence (asset : Asset) (scores : List ℚ) : ℚ :=
  let confidence : ℚ := 0.5
  let confidence := confidence + (if asset.technicalIndicators.isSome then 0.15 else 0)
  let confidence := confidence + (if asset.socialMetrics.isSome then 0.15 else 0)
  let confidence := confidence +
    (match asset.newsArticles with
     | some articles => if articles.length > 0 then 0.1 else 0
     | none => 0)
  let confidence := confidence +
    (match asset.volume24h with
     | some volume => if volume = 0 then 0 else 0.1
     | none => 0)
  let scoreValues := scores.filter (fun s => s ≠ 0)
  let confidence :=
    if scoreValues.length > 0 then
      let avgScore := scoreValues.sum / (scoreValues.length : ℚ)
      let consistency :=
        1 - (scoreValues.map (fun s => |s - avgScore|)).sum / (scoreValues.length : ℚ)
      confidence + consistency * 0.2
    else confidence
  max 0.1 (min 0.95 confidence)

/-- `ForecastingEngine.assessRisk`. -/
def assessRisk (asset : Asset) (confidence : ℚ) : RiskLevel :=
  if confidence > 0.8 ∧ |asset.priceChange24h| < 5 then .low
  else if confidence > 0.6 ∧ |asset.priceChange24h| < 10 then .medium
  else .high

/-- The messages produced by `ForecastingEngine.generateReasoning`, with
their interpolated numeric payloads. -/
inductive ReasoningMsg
  | strongPositiveSentiment (pct : ℤ)
  | negativeSentiment (pct : ℤ)
  | rsiOversold (rsi : ℚ)
  | rsiOverbought (rsi : ℚ)
  | highTradingVolume
  | strongMomentum (priceChange24h : ℚ)
  | defaultAnalysis
deriving DecidableEq, Repr

/-- `ForecastingEngine.generateReasoning` (only `scores.sentiment` is
read from the score object).  `asset.technicalIndicators?.rsi` is truthy
when the indicators are present with a nonzero `rsi`. -/
def generateReasoning (asset : Asset) (sentiment : ℚ) : List ReasoningMsg :=
  let sentimentMsgs :=
    if sentiment > 0.3 then [ReasoningMsg.strongPositiveSentiment (jsRound (sentiment * 100))]
    else if sentiment < -0.3 then [ReasoningMsg.negativeSentiment (jsRound (sentiment * 100))]
    else []
  let technicalMsgs :=
    match asset.technicalIndicators with
    | some indicators =>
        if indicators.rsi = 0 then []
        else if indicators.rsi < 30 then [ReasoningMsg.rsiOversold indicators.rsi]
        else if indicators.rsi > 70 then [ReasoningMsg.rsiOverbought indicators.rsi]
        else []
    | none => []
  let volumeMsgs :=
    match asset.volume24h with
    | some volume => if volume ≠ 0 ∧ volume > 1000000 then [ReasoningMsg.highTradingVolume] else []
    | none => []
  let momentumMsgs :=
    if |asset.priceChange24h| > 5 then [ReasoningMsg.strongMomentum asset.priceChange24h] else []
  let reasoning := sentimentMsgs ++ technicalMsgs ++ volumeMsgs ++ momentumMsgs
  if reasoning.length > 0 then reasoning else [ReasoningMsg.defaultAnalysis]

structure ForecastPrediction where
  price : ℚ
  direction : Direction
  confidence : ℤ
  timeframeDays : ℕ
deriving DecidableEq, Repr

structure ForecastFactors where
  sentiment : ℤ
  technical : ℤ
  volume : ℤ
  social : ℤ
deriving DecidableEq, Repr

structure ForecastResult where
  prediction : ForecastPrediction
  factors : ForecastFactors
  riskLevel : RiskLevel
  reasoning : List ReasoningMsg
deriving DecidableEq, Repr

/-- `ForecastingEngine.generateForecast`; `rand` is the `Math.random()`
sample drawn inside `predictPrice`. -/
def generateForecast (config : ForecastingConfig) (asset : Asset) (rand : ℚ) : ForecastResult :=
  let sentimentScore := calculateSentimentImpact asset
  let technicalScore := calculateTechnicalScore asset
  let volumeScore := calculateVolumeScore asset
  let socialScore := calculateSocialScore asset
  let composite := compositeScore config asset
  let pricePrediction := predictPrice asset composite rand
  let confidence := calculateConfidence asset [sentimentScore, technicalScore, volumeScore, socialScore]
  let riskLevel := assessRisk asset confidence
  let reasoning := generateReasoning asset sentimentScore
  { prediction :=
      { price := pricePrediction
        direction :=
          if composite > 0.1 then .bullish
          else if composite < -0.1 then .bearish
          else .neutral
        confidence := jsRound (confidence * 100)
        timeframeDays := config.timeHorizon }
    factors :=
      { sentiment := jsRound (sentimentScore * 100)
        technical := jsRound (technicalScore * 100)
        volume := jsRound (volumeScore * 100)
        social := jsRound (socialScore * 100) }
    riskLevel := riskLevel
    reasoning := reasoning }

/-! ### useDataRefresh (src/hooks/useDataRefresh.ts) -/

/-- The per-asset update written back by the polling `refreshData` loop
(the `updatedAsset` object, lines 35–44).  The four variation parameters
stand for the `Math.random()`-derived deltas; `timestamp` is the ISO
string computed at the top of the refresh. -/
def updatedAsset (asset : Asset) (priceVariation priceChangeDelta sentimentVariation confidenceVariation volumeVariation : ℚ)
    (timestamp : String) : Asset :=
  { asset with
    currentPrice := max 0.000001 (asset.currentPrice * (1 + priceVariation))
    priceChange24h := asset.priceChange24h + priceChangeDelta
    sentimentScore := max (-1) (min 1 (asset.sentimentScore + sentimentVariation))
    confidenceLevel := max 10 (min 100 (asset.confidenceLevel + confidenceVariation * 20))
    volume24h := asset.volume24h.map (fun volume => volume * volumeVariation)
    lastAnalyzed := some timestamp }

/-! ### LanguageContext (src/context/LanguageContext.tsx) -/

inductive Language
  | en
  | sk
deriving DecidableEq, Repr

structure TranslationEntry where
  en : String
  sk : String
deriving DecidableEq, Repr

/-- Entries 0–39 of the `LanguageProvider` translation table
(src/context/LanguageContext.tsx), in source order. -/
def translationsChunk0 : List (String × TranslationEntry) := [
  ("nav.dashboard", ⟨"Dashboard", "Prehľad"⟩),
  ("nav.analysis", ⟨"Analysis", "Analýza"⟩),
  ("nav.alerts", ⟨"Alerts", "Upozornenia"⟩),
  ("nav.subscription", ⟨"Subscription", "Predplatné"⟩),
  ("nav.settings", ⟨"Settings", "Nastavenia"⟩),
  ("nav.signIn", ⟨"Sign In", "Prihlásiť sa"⟩),
  ("nav.signOut", ⟨"Sign Out", "Odhlásiť sa"⟩),
  ("dashboard.title", ⟨"Market Sentiment Dashboard", "Prehľad nálady trhu"⟩),
  ("dashboard.subtitle", ⟨"Track real-time sentiment and predictions for your favorite assets", "Sledujte náladu a predpovede vašich obľúbených aktív v reálnom čase"⟩),
  ("dashboard.addAsset", ⟨"Add Asset", "Pridať aktívum"⟩),
  ("dashboard.searchPlaceholder", ⟨"Search stocks or crypto...", "Hľadať akcie alebo krypto..."⟩),
  ("dashboard.noAssets", ⟨"No tracked assets yet", "Zatiaľ žiadne sledované aktíva"⟩),
  ("dashboard.startTracking", ⟨"Start tracking your first asset to see sentiment analysis and predictions.", "Začnite sledovať svoje prvé aktívum a uvidíte analýzu nálady a predpovede."⟩),
  ("dashboard.totalAssets", ⟨"Total Assets", "Celkové aktíva"⟩),
  ("dashboard.positiveSignals", ⟨"Positive Signals", "Pozitívne signály"⟩),
  ("dashboard.averageConfidence", ⟨"Average Confidence", "Priemerná spoľahlivosť"⟩),
  ("dashboard.recentAlerts", ⟨"Recent Alerts", "Najnovšie upozornenia"⟩),
  ("dashboard.marketOverview", ⟨"Market Overview", "Prehľad trhu"⟩),
  ("dashboard.topMovers", ⟨"Top Movers", "Najväčšie pohyby"⟩),
  ("dashboard.sentimentTrends", ⟨"Sentiment Trends", "Trendy nálady"⟩),
  ("settings.title", ⟨"Settings", "Nastavenia"⟩),
  ("settings.subtitle", ⟨"Manage your account preferences and application settings", "Spravujte nastavenia účtu a aplikácie"⟩),
  ("settings.appearance", ⟨"Appearance", "Vzhľad"⟩),
  ("settings.language", ⟨"Language", "Jazyk"⟩),
  ("settings.languageDesc", ⟨"Choose your preferred language", "Vyberte si preferovaný jazyk"⟩),
  ("settings.english", ⟨"English", "Angličtina"⟩),
  ("settings.slovak", ⟨"Slovak", "Slovenčina"⟩),
  ("settings.notifications", ⟨"Notifications", "Upozornenia"⟩),
  ("settings.notificationsDesc", ⟨"Configure your notification preferences", "Nakonfigurujte nastavenia upozornení"⟩),
  ("settings.emailNotifications", ⟨"Email Notifications", "E-mailové upozornenia"⟩),
  ("settings.pushNotifications", ⟨"Push Notifications", "Push upozornenia"⟩),
  ("settings.account", ⟨"Account", "Účet"⟩),
  ("settings.accountDesc", ⟨"Manage your account information", "Spravujte informácie o účte"⟩),
  ("settings.privacy", ⟨"Privacy", "Súkromie"⟩),
  ("settings.privacyDesc", ⟨"Your data privacy and security settings", "Nastavenia súkromia a bezpečnosti dát"⟩),
  ("settings.support", ⟨"Support", "Podpora"⟩),
  ("settings.supportDesc", ⟨"Get help and contact our support team", "Získajte pomoc a kontaktujte náš tím podpory"⟩),
  ("settings.viewPrivacyPolicy", ⟨"View Privacy Policy →", "Zobraziť zásady súkromia →"⟩),
  ("settings.contactSupport", ⟨"Contact Support →", "Kontaktovať podporu →"⟩),
  ("settings.theme", ⟨"Theme", "Téma"⟩)
]

/-- Entries 40–79 of the `LanguageProvider` translation table
(src/context/LanguageContext.tsx), in source order. -/
def translationsChunk1 : List (String × TranslationEntry) := [
  ("settings.themeDesc", ⟨"Choose your preferred theme", "Vyberte si preferovanú tému"⟩),
  ("settings.lightMode", ⟨"Light Mode", "Svetlý režim"⟩),
  ("settings.darkMode", ⟨"Dark Mode", "Tmavý režim"⟩),
  ("asset.track", ⟨"Track", "Sledovať"⟩),
  ("asset.untrack", ⟨"Untrack", "Prestať sledovať"⟩),
  ("asset.viewAnalysis", ⟨"View Analysis", "Zobraziť analýzu"⟩),
  ("asset.sentiment", ⟨"Sentiment", "Nálada"⟩),
  ("asset.prediction", ⟨"Prediction", "Predpoveď"⟩),
  ("asset.confidence", ⟨"Confidence", "Spoľahlivosť"⟩),
  ("asset.growth", ⟨"Growth", "Rast"⟩),
  ("asset.drop", ⟨"Drop", "Pokles"⟩),
  ("asset.price", ⟨"Price", "Cena"⟩),
  ("asset.currentPrice", ⟨"Current Price", "Aktuálna cena"⟩),
  ("asset.change", ⟨"Change", "Zmena"⟩),
  ("asset.volume", ⟨"Volume", "Objem"⟩),
  ("asset.volume24h", ⟨"24h Volume", "24h objem"⟩),
  ("asset.marketCap", ⟨"Market Cap", "Trhová kapitalizácia"⟩),
  ("asset.lastUpdate", ⟨"Last Update", "Posledná aktualizácia"⟩),
  ("asset.lastAnalyzed", ⟨"Last Analyzed", "Naposledy analyzované"⟩),
  ("asset.24h", ⟨"24h", "24h"⟩),
  ("asset.tradingVolume", ⟨"Trading Volume", "Objem obchodovania"⟩),
  ("asset.totalValue", ⟨"Total Value", "Celková hodnota"⟩),
  ("analysis.title", ⟨"Sentiment Analysis", "Analýza nálady"⟩),
  ("analysis.subtitle", ⟨"Deep dive into market sentiment and AI predictions", "Hlboká analýza nálady trhu a AI predpovedí"⟩),
  ("analysis.overview", ⟨"Overview", "Prehľad"⟩),
  ("analysis.sources", ⟨"Data Sources", "Zdroje dát"⟩),
  ("analysis.timeline", ⟨"Timeline", "Časová os"⟩),
  ("analysis.predictions", ⟨"Predictions", "Predpovede"⟩),
  ("analysis.socialMedia", ⟨"Social Media", "Sociálne siete"⟩),
  ("analysis.news", ⟨"News", "Správy"⟩),
  ("analysis.technicalIndicators", ⟨"Technical Indicators", "Technické indikátory"⟩),
  ("analysis.technicalAnalysis", ⟨"Technical Analysis", "Technická analýza"⟩),
  ("analysis.sentiment24h", ⟨"24h Sentiment", "24h nálada"⟩),
  ("analysis.sentiment7d", ⟨"7d Sentiment", "7d nálada"⟩),
  ("analysis.sentiment30d", ⟨"30d Sentiment", "30d nálada"⟩),
  ("analysis.bullish", ⟨"Bullish", "Býčí"⟩),
  ("analysis.bearish", ⟨"Bearish", "Medvedí"⟩),
  ("analysis.neutral", ⟨"Neutral", "Neutrálny"⟩),
  ("analysis.veryPositive", ⟨"Very Positive", "Veľmi pozitívny"⟩),
  ("analysis.positive", ⟨"Positive", "Pozitívny"⟩)
]

/-- Entries 80–119 of the `LanguageProvider` translation table
(src/context/LanguageContext.tsx), in source order. -/
def translationsChunk2 : List (String × TranslationEntry) := [
  ("analysis.negative", ⟨"Negative", "Negatívny"⟩),
  ("analysis.veryNegative", ⟨"Very Negative", "Veľmi negatívny"⟩),
  ("analysis.overbought", ⟨"Overbought", "Prekúpený"⟩),
  ("analysis.oversold", ⟨"Oversold", "Prepredaný"⟩),
  ("analysis.shortTerm", ⟨"Short Term", "Krátkodobý"⟩),
  ("analysis.longTerm", ⟨"Long Term", "Dlhodobý"⟩),
  ("analysis.aiReasoning", ⟨"AI Analysis Reasoning", "Odôvodnenie AI analýzy"⟩),
  ("analysis.bullishFactors", ⟨"Bullish Factors", "Býčie faktory"⟩),
  ("analysis.bearishFactors", ⟨"Bearish Factors", "Medvedie faktory"⟩),
  ("analysis.priceMovement", ⟨"Price Movement", "Pohyb ceny"⟩),
  ("analysis.marketSentiment", ⟨"Market Sentiment", "Nálada trhu"⟩),
  ("analysis.tradingVolume", ⟨"Trading Volume", "Objem obchodovania"⟩),
  ("analysis.socialSentiment", ⟨"Social Sentiment", "Sociálna nálada"⟩),
  ("analysis.strongUpwardMomentum", ⟨"Strong upward momentum with significant price gains", "Silný vzostupný momentum so značnými cenovými ziskami"⟩),
  ("analysis.significantDecline", ⟨"Significant price decline indicating bearish pressure", "Významný pokles ceny naznačujúci medvedí tlak"⟩),
  ("analysis.overwhelminglyPositive", ⟨"Overwhelmingly positive market sentiment from multiple sources", "Prevažne pozitívna nálada trhu z viacerých zdrojov"⟩),
  ("analysis.negativeMarketSentiment", ⟨"Negative market sentiment indicating investor concern", "Negatívna nálada trhu naznačujúca obavy investorov"⟩),
  ("analysis.overboughtCondition", ⟨"Overbought condition suggests potential price correction", "Prekúpený stav naznačuje možnú korekciu ceny"⟩),
  ("analysis.oversoldCondition", ⟨"Oversold condition indicates potential buying opportunity", "Prepredaný stav naznačuje možnú príležitosť na nákup"⟩),
  ("analysis.highTradingActivity", ⟨"High trading activity shows strong market interest", "Vysoká obchodná aktivita ukazuje silný záujem trhu"⟩),
  ("analysis.positiveSocialBuzz", ⟨"Positive social media buzz and community sentiment", "Pozitívny rozruch na sociálnych sieťach a nálada komunity"⟩),
  ("analysis.highImpact", ⟨"High Impact", "Vysoký dopad"⟩),
  ("analysis.mediumImpact", ⟨"Medium Impact", "Stredný dopad"⟩),
  ("analysis.lowImpact", ⟨"Low Impact", "Nízky dopad"⟩),
  ("analysis.noBullishFactors", ⟨"No significant bullish factors detected", "Nezistili sa žiadne významné býčie faktory"⟩),
  ("analysis.noBearishFactors", ⟨"No significant bearish factors detected", "Nezistili sa žiadne významné medvedie faktory"⟩),
  ("analysis.overallAssessment", ⟨"Overall Assessment", "Celkové hodnotenie"⟩),
  ("analysis.positiveOutlook", ⟨"Based on current analysis, the outlook appears positive with favorable market conditions.", "Na základe aktuálnej analýzy sa výhľad javí pozitívne s priaznivými trhovými podmienkami."⟩),
  ("analysis.negativeOutlook", ⟨"Current analysis suggests a negative outlook with challenging market conditions.", "Aktuálna analýza naznačuje negatívny výhľad s náročnými trhovými podmienkami."⟩),
  ("analysis.neutralOutlook", ⟨"The analysis indicates a neutral outlook with mixed market signals.", "Analýza naznačuje neutrálny výhľad so zmiešanými trhovými signálmi."⟩),
  ("analysis.confidenceLevel", ⟨"Confidence Level", "Úroveň spoľahlivosti"⟩),
  ("analysis.predictionAnalysis", ⟨"AI Prediction Analysis", "AI predikčná analýza"⟩),
  ("analysis.growthProbability", ⟨"Growth Probability", "Pravdepodobnosť rastu"⟩),
  ("analysis.nextWeek", ⟨"Next 7 days", "Nasledujúcich 7 dní"⟩),
  ("analysis.modelAccuracy", ⟨"Model accuracy", "Presnosť modelu"⟩),
  ("analysis.riskLevel", ⟨"Risk Level", "Úroveň rizika"⟩),
  ("analysis.investmentRisk", ⟨"Investment risk", "Investičné riziko"⟩),
  ("analysis.risk", ⟨"Risk", "Riziko"⟩),
  ("analysis.high", ⟨"High", "Vysoké"⟩),
  ("analysis.medium", ⟨"Medium", "Stredné"⟩)
]

/-- Entries 120–159 of the `LanguageProvider` translation table
(src/context/LanguageContext.tsx), in source order. -/
def translationsChunk3 : List (String × TranslationEntry) := [
  ("analysis.low", ⟨"Low", "Nízke"⟩),
  ("analysis.latestNews", ⟨"Latest News", "Najnovšie správy"⟩),
  ("analysis.twitterMentions", ⟨"Twitter Mentions", "Zmienky na Twitteri"⟩),
  ("analysis.redditPosts", ⟨"Reddit Posts", "Príspevky na Reddit"⟩),
  ("analysis.socialScore", ⟨"Social Score", "Sociálne skóre"⟩),
  ("subscription.title", ⟨"Choose Your Plan", "Vyberte si svoj plán"⟩),
  ("subscription.subtitle", ⟨"Unlock the full power of AI-driven market sentiment analysis", "Odomknite plnú silu analýzy nálady trhu pomocou AI"⟩),
  ("subscription.currentPlan", ⟨"Current Plan", "Aktuálny plán"⟩),
  ("subscription.free", ⟨"Free", "Zadarmo"⟩),
  ("subscription.pro", ⟨"Pro", "Pro"⟩),
  ("subscription.enterprise", ⟨"Enterprise", "Enterprise"⟩),
  ("subscription.upgradeNow", ⟨"Upgrade Now", "Upgradovať teraz"⟩),
  ("subscription.currentPlanButton", ⟨"Current Plan", "Aktuálny plán"⟩),
  ("subscription.getStarted", ⟨"Get Started", "Začať"⟩),
  ("subscription.promoCode", ⟨"Have a promo code?", "Máte promo kód?"⟩),
  ("subscription.enterCode", ⟨"Enter Code", "Zadať kód"⟩),
  ("subscription.codePlaceholder", ⟨"Enter promo code...", "Zadajte promo kód..."⟩),
  ("subscription.applyCode", ⟨"Apply Code", "Použiť kód"⟩),
  ("subscription.codeSuccess", ⟨"Promo code applied! You now have Pro access.", "Promo kód bol použitý! Teraz máte Pro prístup."⟩),
  ("subscription.codeError", ⟨"Invalid promo code. Please try again.", "Neplatný promo kód. Skúste to znova."⟩),
  ("subscription.feature.trackAssets", ⟨"Track unlimited assets", "Sledovať neobmedzené množstvo aktív"⟩),
  ("subscription.feature.realTimeAlerts", ⟨"Real-time alerts", "Upozornenia v reálnom čase"⟩),
  ("subscription.feature.advancedAnalysis", ⟨"Advanced AI analysis", "Pokročilá AI analýza"⟩),
  ("subscription.feature.telegramNotifications", ⟨"Telegram notifications", "Telegram upozornenia"⟩),
  ("subscription.feature.prioritySupport", ⟨"Priority support", "Prioritná podpora"⟩),
  ("subscription.feature.customAlerts", ⟨"Custom alert rules", "Vlastné pravidlá upozornení"⟩),
  ("subscription.feature.historicalData", ⟨"Historical data access", "Prístup k historickým dátam"⟩),
  ("subscription.feature.apiAccess", ⟨"API access", "Prístup k API"⟩),
  ("subscription.feature.whiteLabel", ⟨"White-label options", "White-label možnosti"⟩),
  ("subscription.feature.customIntegrations", ⟨"Custom integrations", "Vlastné integrácie"⟩),
  ("subscription.feature.dedicatedSupport", ⟨"Dedicated support", "Dedikovaná podpora"⟩),
  ("subscription.feature.advancedAnalytics", ⟨"Advanced analytics", "Pokročilé analytiky"⟩),
  ("subscription.feature.teamManagement", ⟨"Team management", "Správa tímu"⟩),
  ("search.title", ⟨"Search Assets", "Hľadať aktíva"⟩),
  ("search.placeholder", ⟨"Search for stocks, crypto, or indices...", "Hľadať akcie, krypto alebo indexy..."⟩),
  ("search.popular", ⟨"Popular Assets", "Populárne aktíva"⟩),
  ("search.recent", ⟨"Recently Added", "Nedávno pridané"⟩),
  ("search.noResults", ⟨"No results found", "Nenašli sa žiadne výsledky"⟩),
  ("search.tryDifferent", ⟨"Try searching for a different asset", "Skúste hľadať iné aktívum"⟩),
  ("common.loading", ⟨"Loading...", "Načítava..."⟩)
]

/-- Entries 160–199 of the `LanguageProvider` translation table
(src/context/LanguageContext.tsx), in source order. -/
def translationsChunk4 : List (String × TranslationEntry) := [
  ("common.error", ⟨"Error", "Chyba"⟩),
  ("common.success", ⟨"Success", "Úspech"⟩),
  ("common.cancel", ⟨"Cancel", "Zrušiť"⟩),
  ("common.save", ⟨"Save", "Uložiť"⟩),
  ("common.close", ⟨"Close", "Zavrieť"⟩),
  ("common.edit", ⟨"Edit", "Upraviť"⟩),
  ("common.delete", ⟨"Delete", "Zmazať"⟩),
  ("common.confirm", ⟨"Confirm", "Potvrdiť"⟩),
  ("common.back", ⟨"Back", "Späť"⟩),
  ("common.next", ⟨"Next", "Ďalej"⟩),
  ("common.previous", ⟨"Previous", "Predchádzajúce"⟩),
  ("common.search", ⟨"Search", "Hľadať"⟩),
  ("common.filter", ⟨"Filter", "Filter"⟩),
  ("common.sort", ⟨"Sort", "Zoradiť"⟩),
  ("common.view", ⟨"View", "Zobraziť"⟩),
  ("common.download", ⟨"Download", "Stiahnuť"⟩),
  ("common.export", ⟨"Export", "Exportovať"⟩),
  ("common.import", ⟨"Import", "Importovať"⟩),
  ("common.refresh", ⟨"Refresh", "Obnoviť"⟩),
  ("common.reset", ⟨"Reset", "Resetovať"⟩),
  ("common.apply", ⟨"Apply", "Použiť"⟩),
  ("common.clear", ⟨"Clear", "Vymazať"⟩),
  ("common.select", ⟨"Select", "Vybrať"⟩),
  ("common.upload", ⟨"Upload", "Nahrať"⟩),
  ("common.copy", ⟨"Copy", "Kopírovať"⟩),
  ("common.paste", ⟨"Paste", "Vložiť"⟩),
  ("common.cut", ⟨"Cut", "Vystrihnúť"⟩),
  ("common.undo", ⟨"Undo", "Späť"⟩),
  ("common.redo", ⟨"Redo", "Znovu"⟩),
  ("common.yes", ⟨"Yes", "Áno"⟩),
  ("common.no", ⟨"No", "Nie"⟩),
  ("common.ok", ⟨"OK", "OK"⟩),
  ("common.all", ⟨"All", "Všetko"⟩),
  ("common.none", ⟨"None", "Žiadne"⟩),
  ("common.other", ⟨"Other", "Iné"⟩),
  ("common.unknown", ⟨"Unknown", "Neznáme"⟩),
  ("common.notAvailable", ⟨"Not Available", "Nie je k dispozícii"⟩),
  ("common.comingSoon", ⟨"Coming Soon", "Už čoskoro"⟩),
  ("common.beta", ⟨"Beta", "Beta"⟩),
  ("common.new", ⟨"New", "Nové"⟩)
]

/-- Entries 200–239 of the `LanguageProvider` translation table
(src/context/LanguageContext.tsx), in source order. -/
def translationsChunk5 : List (String × TranslationEntry) := [
  ("common.updated", ⟨"Updated", "Aktualizované"⟩),
  ("common.premium", ⟨"Premium", "Premium"⟩),
  ("common.free", ⟨"Free", "Zadarmo"⟩),
  ("common.pro", ⟨"Pro", "Pro"⟩),
  ("common.basic", ⟨"Basic", "Základný"⟩),
  ("common.advanced", ⟨"Advanced", "Pokročilý"⟩),
  ("common.expert", ⟨"Expert", "Expert"⟩),
  ("common.beginner", ⟨"Beginner", "Začiatočník"⟩),
  ("common.intermediate", ⟨"Intermediate", "Stredne pokročilý"⟩),
  ("common.high", ⟨"High", "Vysoký"⟩),
  ("common.medium", ⟨"Medium", "Stredný"⟩),
  ("common.low", ⟨"Low", "Nízky"⟩),
  ("common.enabled", ⟨"Enabled", "Povolené"⟩),
  ("common.disabled", ⟨"Disabled", "Zakázané"⟩),
  ("common.online", ⟨"Online", "Online"⟩),
  ("common.offline", ⟨"Offline", "Offline"⟩),
  ("common.connected", ⟨"Connected", "Pripojené"⟩),
  ("common.disconnected", ⟨"Disconnected", "Odpojené"⟩),
  ("common.synced", ⟨"Synced", "Synchronizované"⟩),
  ("common.syncing", ⟨"Syncing", "Synchronizuje sa"⟩),
  ("common.failed", ⟨"Failed", "Neúspešné"⟩),
  ("common.completed", ⟨"Completed", "Dokončené"⟩),
  ("common.pending", ⟨"Pending", "Čaká sa"⟩),
  ("common.processing", ⟨"Processing", "Spracováva sa"⟩),
  ("common.active", ⟨"Active", "Aktívne"⟩),
  ("common.inactive", ⟨"Inactive", "Neaktívne"⟩),
  ("common.archived", ⟨"Archived", "Archivované"⟩),
  ("common.draft", ⟨"Draft", "Koncept"⟩),
  ("common.published", ⟨"Published", "Publikované"⟩),
  ("common.private", ⟨"Private", "Súkromné"⟩),
  ("common.public", ⟨"Public", "Verejné"⟩),
  ("common.shared", ⟨"Shared", "Zdieľané"⟩),
  ("common.favorite", ⟨"Favorite", "Obľúbené"⟩),
  ("common.bookmark", ⟨"Bookmark", "Záložka"⟩),
  ("common.like", ⟨"Like", "Páči sa mi"⟩),
  ("common.dislike", ⟨"Dislike", "Nepáči sa mi"⟩),
  ("common.follow", ⟨"Follow", "Sledovať"⟩),
  ("common.unfollow", ⟨"Unfollow", "Prestať sledovať"⟩),
  ("common.subscribe", ⟨"Subscribe", "Odoberať"⟩),
  ("common.unsubscribe", ⟨"Unsubscribe", "Prestať odoberať"⟩)
]

/-- Entries 240–279 of the `LanguageProvider` translation table
(src/context/LanguageContext.tsx), in source order. -/
def translationsChunk6 : List (String × TranslationEntry) := [
  ("common.notify", ⟨"Notify", "Upozorniť"⟩),
  ("common.mute", ⟨"Mute", "Stlmiť"⟩),
  ("common.unmute", ⟨"Unmute", "Zrušiť stlmenie"⟩),
  ("common.block", ⟨"Block", "Zablokovať"⟩),
  ("common.unblock", ⟨"Unblock", "Odblokovať"⟩),
  ("common.report", ⟨"Report", "Nahlásiť"⟩),
  ("common.share", ⟨"Share", "Zdieľať"⟩),
  ("common.embed", ⟨"Embed", "Vložiť"⟩),
  ("common.link", ⟨"Link", "Odkaz"⟩),
  ("common.url", ⟨"URL", "URL"⟩),
  ("common.email", ⟨"Email", "E-mail"⟩),
  ("common.phone", ⟨"Phone", "Telefón"⟩),
  ("common.address", ⟨"Address", "Adresa"⟩),
  ("common.name", ⟨"Name", "Meno"⟩),
  ("common.title", ⟨"Title", "Názov"⟩),
  ("common.description", ⟨"Description", "Popis"⟩),
  ("common.category", ⟨"Category", "Kategória"⟩),
  ("common.tag", ⟨"Tag", "Značka"⟩),
  ("common.type", ⟨"Type", "Typ"⟩),
  ("common.status", ⟨"Status", "Stav"⟩),
  ("common.priority", ⟨"Priority", "Priorita"⟩),
  ("common.date", ⟨"Date", "Dátum"⟩),
  ("common.time", ⟨"Time", "Čas"⟩),
  ("common.duration", ⟨"Duration", "Trvanie"⟩),
  ("common.size", ⟨"Size", "Veľkosť"⟩),
  ("common.quantity", ⟨"Quantity", "Množstvo"⟩),
  ("common.amount", ⟨"Amount", "Suma"⟩),
  ("common.total", ⟨"Total", "Celkom"⟩),
  ("common.subtotal", ⟨"Subtotal", "Medzisúčet"⟩),
  ("common.tax", ⟨"Tax", "Daň"⟩),
  ("common.discount", ⟨"Discount", "Zľava"⟩),
  ("common.shipping", ⟨"Shipping", "Doprava"⟩),
  ("common.currency", ⟨"Currency", "Mena"⟩),
  ("common.language", ⟨"Language", "Jazyk"⟩),
  ("common.country", ⟨"Country", "Krajina"⟩),
  ("common.city", ⟨"City", "Mesto"⟩),
  ("common.region", ⟨"Region", "Región"⟩),
  ("common.timezone", ⟨"Timezone", "Časové pásmo"⟩),
  ("common.results", ⟨"Results", "Výsledky"⟩),
  ("time.now", ⟨"Now", "Teraz"⟩)
]

/-- Entries 280–309 of the `LanguageProvider` translation table
(src/context/LanguageContext.tsx), in source order. -/
def translationsChunk7 : List (String × TranslationEntry) := [
  ("time.justNow", ⟨"Just now", "Práve teraz"⟩),
  ("time.minuteAgo", ⟨"A minute ago", "Pred minútou"⟩),
  ("time.minutesAgo", ⟨"minutes ago", "pred minútami"⟩),
  ("time.hourAgo", ⟨"An hour ago", "Pred hodinou"⟩),
  ("time.hoursAgo", ⟨"hours ago", "pred hodinami"⟩),
  ("time.dayAgo", ⟨"A day ago", "Pred dňom"⟩),
  ("time.daysAgo", ⟨"days ago", "pred dňami"⟩),
  ("time.weekAgo", ⟨"A week ago", "Pred týždňom"⟩),
  ("time.weeksAgo", ⟨"weeks ago", "pred týždňami"⟩),
  ("time.monthAgo", ⟨"A month ago", "Pred mesiacom"⟩),
  ("time.monthsAgo", ⟨"months ago", "pred mesiacmi"⟩),
  ("time.yearAgo", ⟨"A year ago", "Pred rokom"⟩),
  ("time.yearsAgo", ⟨"years ago", "pred rokmi"⟩),
  ("auth.signInRequired", ⟨"Sign in to access this feature", "Prihláste sa pre prístup k tejto funkcii"⟩),
  ("auth.signInToView", ⟨"Sign in to view", "Prihláste sa pre zobrazenie"⟩),
  ("auth.signInToContinue", ⟨"Sign in to continue", "Prihláste sa pre pokračovanie"⟩),
  ("auth.welcomeBack", ⟨"Welcome back!", "Vitajte späť!"⟩),
  ("auth.signInSuccess", ⟨"Successfully signed in", "Úspešne prihlásený"⟩),
  ("auth.signOutSuccess", ⟨"Successfully signed out", "Úspešne odhlásený"⟩),
  ("auth.signInError", ⟨"Sign in failed. Please try again.", "Prihlásenie zlyhalo. Skúste to znova."⟩),
  ("success.saved", ⟨"Successfully saved", "Úspešne uložené"⟩),
  ("success.updated", ⟨"Successfully updated", "Úspešne aktualizované"⟩),
  ("success.deleted", ⟨"Successfully deleted", "Úspešne zmazané"⟩),
  ("success.created", ⟨"Successfully created", "Úspešne vytvorené"⟩),
  ("success.sent", ⟨"Successfully sent", "Úspešne odoslané"⟩),
  ("success.uploaded", ⟨"Successfully uploaded", "Úspešne nahrané"⟩),
  ("success.downloaded", ⟨"Successfully downloaded", "Úspešne stiahnuté"⟩),
  ("success.copied", ⟨"Copied to clipboard", "Skopírované do schránky"⟩),
  ("success.subscribed", ⟨"Successfully subscribed", "Úspešne odoberané"⟩),
  ("success.unsubscribed", ⟨"Successfully unsubscribed", "Úspešne zrušené odberanie"⟩)
]

/-- The full translation table of `LanguageProvider`, in source order. -/
def translations : List (String × TranslationEntry) :=
  translationsChunk0 ++ translationsChunk1 ++ translationsChunk2 ++ translationsChunk3 ++ translationsChunk4 ++ translationsChunk5 ++ translationsChunk6 ++ translationsChunk7

/-- JS object property access `translations[key]` on the entry list:
the first (only) binding of `key`, if any. -/
def findTranslation (key : String) : List (String × TranslationEntry) → Option TranslationEntry
  | [] => none
  | (k, v) :: rest => if k = key then some v else findTranslation key rest

/-- `entry[language]`. -/
def pickLanguage (language : Language) (entry : TranslationEntry) : String :=
  match language with
  | .en => entry.en
  | .sk => entry.sk

/-- The translation function `t` of `LanguageProvider`:
`translations[key]?.[language] || key`. -/
def t (language : Language) (key : String) : String :=
  match findTranslation key translations with
  | some entry => if pickLanguage language entry = "" then key else pickLanguage language entry
  | none => key

/-! ### GoogleDriveService (src/lib/googleDrive.ts) -/

/-- Stand-in for the untyped (`any`) `preferences` JSON object;
`{}` is the empty association list. -/
abbrev PrefObj := List (String × String)

/-- Stand-in for the untyped (`any`) `subscription` / `alerts` JSON
values. -/
abbrev JsonVal := String

structure UserData where
  userId : String
  trackedAssets : List String
  preferences : PrefObj
  subscription : Option JsonVal
  alerts : List JsonVal
  timestamp : ℤ
deriving DecidableEq, Repr

/-- `Partial<UserData>` as passed to `saveUserData` (the `userId` and
`timestamp` fields are overwritten there, so only the four data fields
matter). -/
structure PartialUserData where
  trackedAssets : Option (List String)
  preferences : Option PrefObj
  subscription : Option JsonVal
  alerts : Option (List JsonVal)
deriving DecidableEq, Repr

/-- The `{}` fallback of `await this.loadUserData(userId) || {}`. -/
def emptyPartial : PartialUserData := ⟨none, none, none, none⟩

/-- A loaded full record, viewed as a `Partial<UserData>`. -/
def toPartial (u : UserData) : PartialUserData :=
  ⟨some u.trackedAssets, some u.preferences, u.subscription, some u.alerts⟩

/-- `localStorage`, holding the structured `UserData` records.
`JSON.parse ∘ JSON.stringify` is the identity on these records, so the
string serialization layer is modelled away (the saved claim assumes
localStorage operations succeed). -/
def Store := String → Option UserData

def storagePrefix : String := "sentimentpulse_gdrive_"

/-- `GoogleDriveService.getStorageKey`. -/
def getStorageKey (userId : String) : String := storagePrefix ++ userId

/-- `localStorage.setItem`. -/
def setItem (store : Store) (key : String) (value : UserData) : Store :=
  fun k => if k = key then some value else store k

/-- `GoogleDriveService.saveUserData`; `now` is the timestamp taken at
save time.  The `||` defaults only replace absent (falsy) fields. -/
def saveUserData (store : Store) (userId : String) (data : PartialUserData) (now : ℤ) : Store :=
  let userData : UserData :=
    { userId := userId
      trackedAssets := data.trackedAssets.getD []
      preferences := data.preferences.getD []
      subscription := data.subscription
      alerts := data.alerts.getD []
      timestamp := now }
  let storageKey := getStorageKey userId
  setItem (setItem store storageKey userData) (storageKey ++ "_backup") userData

/-- `GoogleDriveService.loadUserData`: the main key, then the backup. -/
def loadUserData (store : Store) (userId : String) : Option UserData :=
  let storageKey := getStorageKey userId
  match store storageKey with
  | some data => some data
  | none =>
      match store (storageKey ++ "_backup") with
      | some backupData => some backupData
      | none => none

/-- `[...new Set(xs)]`: a JS `Set` iterates in insertion order, so the
spread keeps the first occurrence of each element. -/
def dedupFirstAux [DecidableEq α] (seen : List α) : List α → List α
  | [] => []
  | x :: rest =>
      if x ∈ seen then dedupFirstAux seen rest
      else x :: dedupFirstAux (x :: seen) rest

def dedupFirst [DecidableEq α] (xs : List α) : List α := dedupFirstAux [] xs

/-- `GoogleDriveService.syncTrackedAssets`. -/
def syncTrackedAssets (store : Store) (userId : String) (trackedAssets : List String) (now : ℤ) : Store :=
  let userData := ((loadUserData store userId).map toPartial).getD emptyPartial
  let userData := { userData with trackedAssets := some (dedupFirst trackedAssets) }
  saveUserData store userId userData now

/-! ### Subscription page (src/pages/Subscription.tsx) -/

inductive Plan
  | free
  | pro
  | premium
deriving DecidableEq, Repr

inductive SubStatus
  | active
  | cancelled
  | expired
deriving DecidableEq, Repr

/-- The page-local `Subscription` interface. -/
structure SubscriptionRec where
  _id : Option String
  userId : String
  plan : Plan
  status : SubStatus
  startDate : ℤ
  endDate : Option ℤ
  promoCode : Option String
deriving DecidableEq, Repr

/-- The `subscriptionData` object built inside `handlePromoCode` /
`handleUpgrade` (dates as epoch milliseconds). -/
structure SubscriptionData where
  userId : String
  plan : Plan
  status : SubStatus
  startDate : ℤ
  endDate : ℤ
  promoCode : Option String
  creator : String
  createdAt : ℤ
  updatedAt : ℤ
deriving DecidableEq, Repr

/-- What `handlePromoCode` does: which toast it shows, or which SDK call
(`subscriptions.update` with the existing id, or `subscriptions.create`)
it issues with which payload. -/
inductive PromoOutcome
  | signInErrorToast
  | updateCall (id : String) (data : SubscriptionData)
  | createCall (data : SubscriptionData)
  | invalidCodeErrorToast
deriving DecidableEq, Repr

/-- `handlePromoCode` (Subscription.tsx lines 48–85); `now` is
`Date.now()` in milliseconds.  `current._id!` is the non-null
assertion on the fetched subscription's id. -/
def handlePromoCode (isAuthenticated : Bool) (userId : String) (promoCode : String)
    (currentSubscription : Option SubscriptionRec) (now : ℤ) : PromoOutcome :=
  if !isAuthenticated then .signInErrorToast
  else if toLowerCase promoCode = "fasb99rfa9" then
    let subscriptionData : SubscriptionData :=
      { userId := userId
        plan := .premium
        status := .active
        startDate := now
        endDate := now + 365 * 24 * 60 * 60 * 1000
        promoCode := some promoCode
        creator := userId
        createdAt := now
        updatedAt := now }
    match currentSubscription with
    | some current => .updateCall (current._id.getD "") subscriptionData
    | none => .createCall subscriptionData
  else .invalidCodeErrorToast

/-! ### Error-handling model for the SDK-calling handlers
(src/hooks/useAlerts.ts and src/pages/Subscription.tsx) -/

/-- The outcome of an awaited SDK call: a value, or a thrown error. -/
inductive SdkResult (α : Type)
  | ok (value : α)
  | error (message : String)
deriving DecidableEq, Repr

/-- The user-visible / logged side effects of a handler. -/
inductive Effect
  | toastSuccess (message : String)
  | toastError (message : String)
  | consoleError (message : String)
deriving DecidableEq, Repr

def isErrorToast : Effect → Bool
  | .toastError _ => true
  | _ => false

/-- A handler run: the effects it produced and the exception it let
escape to its caller, if any. -/
structure HandlerRun where
  effects : List Effect
  thrown : Option String
deriving DecidableEq, Repr

/-- `fetchSubscription` (Subscription.tsx lines 36–46): a thrown SDK
error is logged to the console and swallowed. -/
def fetchSubscriptionRun (sdk : SdkResult (List SubscriptionRec)) : HandlerRun :=
  match sdk with
  | .ok _ => { effects := [], thrown := none }
  | .error e => { effects := [.consoleError ("Failed to fetch subscription: " ++ e)], thrown := none }

/-! ### useAlerts (src/hooks/useAlerts.ts) -/

inductive AlertKind
  | price_up
  | price_down
  | sentiment_change
  | volume_spike
deriving DecidableEq, Repr

/-- The `Alert` entity (src/types/Asset.ts). -/
structure Alert where
  _id : Option String
  userId : String
  assetSymbol : String
  type : AlertKind
  threshold : ℚ
  currentValue : ℚ
  triggered : Bool
  message : String
  createdAt : String
  triggeredAt : Option String
deriving DecidableEq, Repr

/-- `fetchAlerts` (useAlerts lines 21–34): early return when not
authenticated; a thrown SDK error is logged and swallowed, with no
toast. -/
def fetchAlertsRun (isAuthenticated hasUser : Bool) (sdk : SdkResult (List Alert)) : HandlerRun :=
  if !isAuthenticated || !hasUser then { effects := [], thrown := none }
  else
    match sdk with
    | .ok _ => { effects := [], thrown := none }
    | .error e => { effects := [.consoleError ("Failed to fetch alerts: " ++ e)], thrown := none }

/-- A `createAlert` run also reports its returned boolean. -/
structure CreateAlertRun where
  effects : List Effect
  thrown : Option String
  returned : Bool
deriving DecidableEq, Repr

/-- `createAlert` (useAlerts lines 37–65); on SDK success the inner
`fetchAlerts` re-fetch runs (itself never throwing) before the success
toast. -/
def createAlertRun (isAuthenticated hasUser : Bool) (assetSymbol : String)
    (createResult : SdkResult Unit) (refetch : SdkResult (List Alert)) : CreateAlertRun :=
  if !isAuthenticated || !hasUser then
    { effects := [.toastError "Please sign in to create alerts"], thrown := none, returned := false }
  else
    match createResult with
    | .ok _ =>
        { effects := (fetchAlertsRun isAuthenticated hasUser refetch).effects ++
            [.toastSuccess ("Alert created for " ++ assetSymbol)]
          thrown := none
          returned := true }
    | .error e =>
        { effects := [.consoleError ("Failed to create alert: " ++ e), .toastError "Failed to create alert"]
          thrown := none
          returned := false }

/-- `updateAlert` (useAlerts lines 68–77). -/
def updateAlertRun (isAuthenticated hasUser : Bool) (updateResult : SdkResult Unit)
    (refetch : SdkResult (List Alert)) : HandlerRun :=
  match updateResult with
  | .ok _ =>
      { effects := (fetchAlertsRun isAuthenticated hasUser refetch).effects ++ [.toastSuccess "Alert updated"]
        thrown := none }
  | .error e =>
      { effects := [.consoleError ("Failed to update alert: " ++ e), .toastError "Failed to update alert"]
        thrown := none }

/-- `deleteAlert` (useAlerts lines 80–89). -/
def deleteAlertRun (isAuthenticated hasUser : Bool) (deleteResult : SdkResult Unit)
    (refetch : SdkResult (List Alert)) : HandlerRun :=
  match deleteResult with
  | .ok _ =>
      { effects := (fetchAlertsRun isAuthenticated hasUser refetch).effects ++ [.toastSuccess "Alert deleted"]
        thrown := none }
  | .error e =>
      { effects := [.consoleError ("Failed to delete alert: " ++ e), .toastError "Failed to delete alert"]
        thrown := none }

/-- The `currentValue` read for an alert against its asset
(`monitorAlerts` switch, lines 104–121). -/
def alertCurrentValue (asset : Asset) (alert : Alert) : ℚ :=
  match alert.type with
  | .price_up => asset.currentPrice
  | .price_down => asset.currentPrice
  | .sentiment_change => asset.sentimentScore * 100
  | .volume_spike => asset.volume24h.getD 0

/-- The `shouldTrigger` condition of the same switch. -/
def alertShouldTrigger (asset : Asset) (alert : Alert) : Bool :=
  match alert.type with
  | .price_up => decide (asset.currentPrice ≥ alert.threshold)
  | .price_down => decide (asset.currentPrice ≤ alert.threshold)
  | .sentiment_change => decide (|asset.sentimentScore * 100| ≥ alert.threshold)
  | .volume_spike => decide (asset.volume24h.getD 0 ≥ alert.threshold)

/-- The partial update passed to `updateAlert` for one alert. -/
structure AlertUpdate where
  triggered : Option Bool
  currentValue : Option ℚ
  triggeredAt : Option String
deriving DecidableEq, Repr

/-- One iteration of the `monitorAlerts` loop body: the alert whose
symbol has no matching asset is skipped (`continue`); otherwise an
update is issued for it. -/
def monitorStep (assets : List Asset) (now : String) (alert : Alert) : Option (Alert × AlertUpdate) :=
  match assets.find? (fun a => a.symbol == alert.assetSymbol) with
  | none => none
  | some asset =>
      if alertShouldTrigger asset alert then
        some (alert, { triggered := some true
                       currentValue := some (alertCurrentValue asset alert)
                       triggeredAt := some now })
      else
        some (alert, { triggered := none
                       currentValue := some (alertCurrentValue asset alert)
                       triggeredAt := none })

/-- `monitorAlerts` (useAlerts lines 92–147), as the list of
(alert, update) pairs passed to `updateAlert`. -/
def monitorAlerts (alerts : List Alert) (assets : List Asset) (now : String) :
    List (Alert × AlertUpdate) :=
  if alerts.length = 0 then []
  else (alerts.filter fun alert => !alert.triggered).filterMap (monitorStep assets now)

/-! ### SearchModal (src/components/SearchModal.tsx) -/

inductive TypeFilter
  | all
  | stock
  | crypto
deriving DecidableEq, Repr

inductive SortKey
  | popularity
  | price
  | change
  | sentiment
deriving DecidableEq, Repr

def typeMatches (filter : TypeFilter) (ty : AssetType) : Bool :=
  match filter, ty with
  | .all, _ => true
  | .stock, .stock => true
  | .crypto, .crypto => true
  | _, _ => false

/-- The `filter((asset, index, self) => index === self.findIndex(a =>
a.symbol === asset.symbol))` idiom: keep the first occurrence of each
symbol. -/
def dedupBySymbolAux (seen : List String) : List Asset → List Asset
  | [] => []
  | asset :: rest =>
      if asset.symbol ∈ seen then dedupBySymbolAux seen rest
      else asset :: dedupBySymbolAux (asset.symbol :: seen) rest

def dedupBySymbol (assets : List Asset) : List Asset := dedupBySymbolAux [] assets

/-- `fetchAssets` (SearchModal lines 49–62): the fetched list with
symbol duplicates removed. -/
def fetchAssets (list : List Asset) : List Asset := dedupBySymbol list

/-- The comparator of the `sort` step of `filterAssets`. -/
def sortCompare (sortBy : SortKey) (a b : Asset) : ℚ :=
  match sortBy with
  | .price => b.currentPrice - a.currentPrice
  | .change => b.priceChange24h - a.priceChange24h
  | .sentiment => b.sentimentScore - a.sentimentScore
  | .popularity =>
      let scoreA := (a.sentimentScore + 1) * a.confidenceLevel
      let scoreB := (b.sentimentScore + 1) * b.confidenceLevel
      scoreB - scoreA

/-- The search-term test of `filterAssets`: case-insensitive containment
in the symbol or the name. -/
def matchesSearch (searchTerm : String) (asset : Asset) : Bool :=
  strIncludes (toLowerCase asset.symbol) (toLowerCase searchTerm) ||
  strIncludes (toLowerCase asset.name) (toLowerCase searchTerm)

/-- `filterAssets` (SearchModal lines 64–115).  The empty price strings
are `none`; a nonempty string stands for its `parseFloat` value.  JS
`Array.prototype.sort` produces a comparator-consistent, stable
reordering; it is modelled by stable insertion sort on the same
comparator. -/
def filterAssets (assets : List Asset) (trackedSymbols : List String) (selectedType : TypeFilter)
    (minPrice maxPrice : Option ℚ) (searchTerm : String) (sortBy : SortKey) : List Asset :=
  let uniqueTrackedSymbols := dedupFirst trackedSymbols
  let filtered := assets.filter fun asset => decide (asset.symbol ∉ uniqueTrackedSymbols)
  let filtered :=
    if selectedType = TypeFilter.all then filtered
    else filtered.filter fun asset => typeMatches selectedType asset.type
  let filtered :=
    match minPrice with
    | none => filtered
    | some minP => filtered.filter fun asset => decide (asset.currentPrice ≥ minP)
  let filtered :=
    match maxPrice with
    | none => filtered
    | some maxP => filtered.filter fun asset => decide (asset.currentPrice ≤ maxP)
  let filtered :=
    if searchTerm = "" then filtered
    else filtered.filter (matchesSearch searchTerm)
  let sorted := List.insertionSort (fun a b => sortCompare sortBy a b ≤ 0) filtered
  dedupBySymbol sorted

/-! ### Claims -/

/-- A minimal concrete asset with every optional field absent and a zero
(falsy) sentiment score. -/
def sampleBareAsset : Asset :=
  { symbol := "BTC"
    name := "Bitcoin"
    type := .crypto
    currentPrice := 50000
    priceChange24h := 1
    volume24h := none
    marketCap := none
    sentimentScore := 0
    predictionGrowthProb := 60
    confidenceLevel := 80
    newsArticles := none
    technicalIndicators := none
    socialMetrics := none
    lastAnalyzed := none }

/-- C1: under the default configuration `generateForecast` computes the
composite score as exactly sentiment*0.35 + technical*0.30 + volume*0.20
+ social*0.15 over the four factor calculators, and reports direction
bullish iff the composite exceeds 0.1, bearish iff it is below -0.1, and
neutral otherwise. -/
theorem generateForecast_composite_direction (asset : Asset) (rand : ℚ) :
    compositeScore defaultConfig asset =
      calculateSentimentImpact asset * 0.35 + calculateTechnicalScore asset * 0.30 +
        calculateVolumeScore asset * 0.20 + calculateSocialScore asset * 0.15 ∧
    ((generateForecast defaultConfig asset rand).prediction.direction = .bullish ↔
      compositeScore defaultConfig asset > 0.1) ∧
    ((generateForecast defaultConfig asset rand).prediction.direction = .bearish ↔
      compositeScore defaultConfig asset < -0.1) ∧
    ((generateForecast defaultConfig asset rand).prediction.direction = .neutral ↔
      (-0.1 ≤ compositeScore defaultConfig asset ∧ compositeScore defaultConfig asset ≤ 0.1)) := by
  refine ⟨rfl, ?_, ?_, ?_⟩ <;>
    simp only [generateForecast] <;>
    split_ifs with h1 h2 <;>
    simp_all <;>
    first
      | linarith
      | (constructor <;> linarith)
      | (rintro ⟨hl, hr⟩ <;> linarith)

/-- C1 witness: the theorem instantiated at a concrete asset. -/
theorem generateForecast_composite_direction_witness :
    compositeScore defaultConfig sampleBareAsset =
      calculateSentimentImpact sampleBareAsset * 0.35 + calculateTechnicalScore sampleBareAsset * 0.30 +
        calculateVolumeScore sampleBareAsset * 0.20 + calculateSocialScore sampleBareAsset * 0.15 ∧
    ((generateForecast defaultConfig sampleBareAsset 0).prediction.direction = .bullish ↔
      compositeScore defaultConfig sampleBareAsset > 0.1) ∧
    ((generateForecast defaultConfig sampleBareAsset 0).prediction.direction = .bearish ↔
      compositeScore defaultConfig sampleBareAsset < -0.1) ∧
    ((generateForecast defaultConfig sampleBareAsset 0).prediction.direction = .neutral ↔
      (-0.1 ≤ compositeScore defaultConfig sampleBareAsset ∧
        compositeScore defaultConfig sampleBareAsset ≤ 0.1)) :=
  generateForecast_composite_direction sampleBareAsset 0

/-- C2: `generateForecast` is total on every asset, and an absent
optional input defaults the corresponding factor score to 0 (with the
base sentiment falling back to 0 when `sentimentScore` is falsy). -/
theorem generateForecast_total_defaults (asset : Asset) (rand : ℚ) :
    (∃ result, generateForecast defaultConfig asset rand = result) ∧
    (asset.technicalIndicators = none → calculateTechnicalScore asset = 0) ∧
    (asset.volume24h = none → calculateVolumeScore asset = 0) ∧
    (asset.socialMetrics = none → calculateSocialScore asset = 0) ∧
    (asset.newsArticles = none → asset.sentimentScore = 0 → calculateSentimentImpact asset = 0) := by
  refine ⟨⟨_, rfl⟩, fun h => ?_, fun h => ?_, fun h => ?_, fun h h0 => ?_⟩ <;>
    simp [calculateTechnicalScore, calculateVolumeScore, calculateSocialScore,
      calculateSentimentImpact, jsOrZero, h]
  · simp [h0]

/-- C2 witness: the defaults evaluated at a concrete asset with every
optional field absent and a falsy sentiment score. -/
theorem generateForecast_total_defaults_witness :
    calculateTechnicalScore sampleBareAsset = 0 ∧ calculateVolumeScore sampleBareAsset = 0 ∧
      calculateSocialScore sampleBareAsset = 0 ∧ calculateSentimentImpact sampleBareAsset = 0 :=
  ⟨(generateForecast_total_defaults sampleBareAsset 0).2.1 rfl,
   (generateForecast_total_defaults sampleBareAsset 0).2.2.1 rfl,
   (generateForecast_total_defaults sampleBareAsset 0).2.2.2.1 rfl,
   (generateForecast_total_defaults sampleBareAsset 0).2.2.2.2 rfl rfl⟩

/-- C3: the sentiment score stays in [-1, 1]:
`calculateSentimentImpact` always lands in [-1, 1], and the polling
refresh of `useDataRefresh` writes back a sentimentScore in [-1, 1]
from any in-range start and any randomized delta. -/
theorem sentimentScore_invariant (asset : Asset)
    (priceVariation priceChangeDelta sentimentVariation confidenceVariation volumeVariation : ℚ)
    (timestamp : String)
    (h1 : -1 ≤ asset.sentimentScore) (h2 : asset.sentimentScore ≤ 1) :
    (-1 ≤ calculateSentimentImpact asset ∧ calculateSentimentImpact asset ≤ 1) ∧
    (-1 ≤ (updatedAsset asset priceVariation priceChangeDelta sentimentVariation
        confidenceVariation volumeVariation timestamp).sentimentScore ∧
      (updatedAsset asset priceVariation priceChangeDelta sentimentVariation
        confidenceVariation volumeVariation timestamp).sentimentScore ≤ 1) := by
  refine ⟨⟨?_, ?_⟩, ?_, ?_⟩ <;>
    simp only [calculateSentimentImpact, updatedAsset] <;>
    first
      | exact le_max_left _ _
      | exact max_le (by norm_num) (min_le_left _ _)

/-- C3 witness: the bounds at a concrete asset and concrete deltas. -/
theorem sentimentScore_invariant_witness :
    (-1 ≤ calculateSentimentImpact sampleBareAsset ∧ calculateSentimentImpact sampleBareAsset ≤ 1) ∧
    (-1 ≤ (updatedAsset sampleBareAsset 1 1 1 1 1 "2024-01-01").sentimentScore ∧
      (updatedAsset sampleBareAsset 1 1 1 1 1 "2024-01-01").sentimentScore ≤ 1) :=
  sentimentScore_invariant sampleBareAsset 1 1 1 1 1 "2024-01-01"
    (by norm_num [sampleBareAsset]) (by norm_num [sampleBareAsset])

/-- C4: while authenticated, `handlePromoCode` unlocks a plan exactly
when the entered code equals "fasb99rfa9" case-insensitively: the
subscription is then created or updated to plan premium, status active,
with an endDate one year (365 days) after `now`; for any other code no
SDK create/update call is issued (only the invalid-code error toast). -/
theorem handlePromoCode_unlocks_iff (userId promoCode : String)
    (currentSubscription : Option SubscriptionRec) (now : ℤ) :
    (toLowerCase promoCode = "fasb99rfa9" →
      ∃ data : SubscriptionData,
        data.plan = .premium ∧ data.status = .active ∧
        data.endDate = now + 365 * 24 * 60 * 60 * 1000 ∧
        ((currentSubscription = none ∧
            handlePromoCode true userId promoCode currentSubscription now = .createCall data) ∨
         (∃ current, currentSubscription = some current ∧
            handlePromoCode true userId promoCode currentSubscription now =
              .updateCall (current._id.getD "") data))) ∧
    (toLowerCase promoCode ≠ "fasb99rfa9" →
      handlePromoCode true userId promoCode currentSubscription now = .invalidCodeErrorToast) := by
  constructor
  · intro h
    refine ⟨{ userId := userId
              plan := .premium
              status := .active
              startDate := now
              endDate := now + 365 * 24 * 60 * 60 * 1000
              promoCode := some promoCode
              creator := userId
              createdAt := now
              updatedAt := now }, rfl, rfl, rfl, ?_⟩
    cases currentSubscription with
    | none => exact Or.inl ⟨rfl, by simp [handlePromoCode, h]⟩
    | some current => exact Or.inr ⟨current, rfl, by simp [handlePromoCode, h]⟩
  · intro h
    simp [handlePromoCode, h]

/-- C4 witness: a mixed-case rendering of the promo code unlocks premium
with no prior subscription, and a wrong code only yields the error
toast. -/
theorem handlePromoCode_unlocks_iff_witness :
    (∃ data : SubscriptionData,
        data.plan = .premium ∧ data.status = .active ∧
        data.endDate = (0 : ℤ) + 365 * 24 * 60 * 60 * 1000 ∧
        (((none : Option SubscriptionRec) = none ∧
            handlePromoCode true "u1" "FaSb99RfA9" none 0 = .createCall data) ∨
         (∃ current, (none : Option SubscriptionRec) = some current ∧
            handlePromoCode true "u1" "FaSb99RfA9" none 0 =
              .updateCall (current._id.getD "") data))) ∧
    handlePromoCode true "u1" "wrongcode" none 0 = .invalidCodeErrorToast :=
  ⟨(handlePromoCode_unlocks_iff "u1" "FaSb99RfA9" none 0).1 (by decide),
   (handlePromoCode_unlocks_iff "u1" "wrongcode" none 0).2 (by decide)⟩

/-- C5 counterexample: a thrown SDK error inside `fetchAlerts` is
swallowed with only a console log — no error toast is shown, contrary to
the claim that every such failure is surfaced via a toast. -/
theorem fetchAlerts_error_shows_no_toast :
    (fetchAlertsRun true true (.error "network error")).thrown = none ∧
    (fetchAlertsRun true true (.error "network error")).effects.any isErrorToast = false :=
  ⟨rfl, rfl⟩

/-- C5 (amended): every SDK error thrown inside the five handlers is
caught and never propagates to the caller; `createAlert`, `updateAlert`
and `deleteAlert` additionally show an error toast, while `fetchAlerts`
and `fetchSubscription` only log the error to the console. -/
theorem sdk_errors_caught (e : String) (refetch : SdkResult (List Alert)) (assetSymbol : String) :
    ((fetchAlertsRun true true (.error e)).thrown = none ∧
      (fetchAlertsRun true true (.error e)).effects.any isErrorToast = false) ∧
    ((createAlertRun true true assetSymbol (.error e) refetch).thrown = none ∧
      (createAlertRun true true assetSymbol (.error e) refetch).effects.any isErrorToast = true) ∧
    ((updateAlertRun true true (.error e) refetch).thrown = none ∧
      (updateAlertRun true true (.error e) refetch).effects.any isErrorToast = true) ∧
    ((deleteAlertRun true true (.error e) refetch).thrown = none ∧
      (deleteAlertRun true true (.error e) refetch).effects.any isErrorToast = true) ∧
    ((fetchSubscriptionRun (.error e)).thrown = none ∧
      (fetchSubscriptionRun (.error e)).effects.any isErrorToast = false) :=
  ⟨⟨rfl, rfl⟩, ⟨rfl, rfl⟩, ⟨rfl, rfl⟩, ⟨rfl, rfl⟩, ⟨rfl, rfl⟩⟩

/-- C5 witness: the amended statement at a concrete error. -/
theorem sdk_errors_caught_witness :
    ((fetchAlertsRun true true (.error "boom")).thrown = none ∧
      (fetchAlertsRun true true (.error "boom")).effects.any isErrorToast = false) ∧
    ((createAlertRun true true "BTC" (.error "boom") (.ok [])).thrown = none ∧
      (createAlertRun true true "BTC" (.error "boom") (.ok [])).effects.any isErrorToast = true) ∧
    ((updateAlertRun true true (.error "boom") (.ok [])).thrown = none ∧
      (updateAlertRun true true (.error "boom") (.ok [])).effects.any isErrorToast = true) ∧
    ((deleteAlertRun true true (.error "boom") (.ok [])).thrown = none ∧
      (deleteAlertRun true true (.error "boom") (.ok [])).effects.any isErrorToast = true) ∧
    ((fetchSubscriptionRun (.error "boom")).thrown = none ∧
      (fetchSubscriptionRun (.error "boom")).effects.any isErrorToast = false) :=
  sdk_errors_caught "boom" (.ok []) "BTC"

/-- Elements of a deduplicated asset list come from the input list. -/
theorem mem_of_mem_dedupBySymbolAux {seen : List String} {l : List Asset} {a : Asset}
    (h : a ∈ dedupBySymbolAux seen l) : a ∈ l := by
  induction l generalizing seen with
  | nil => simpa [dedupBySymbolAux] using h
  | cons x rest ih =>
      by_cases hx : x.symbol ∈ seen
      · rw [dedupBySymbolAux, if_pos hx] at h
        exact List.mem_cons_of_mem _ (ih h)
      · rw [dedupBySymbolAux, if_neg hx] at h
        rcases List.mem_cons.mp h with rfl | h
        · exact List.mem_cons_self _ _
        · exact List.mem_cons_of_mem _ (ih h)

/-- Deduplication never lengthens a list. -/
theorem length_dedupBySymbolAux_le (seen : List String) (l : List Asset) :
    (dedupBySymbolAux seen l).length ≤ l.length := by
  induction l generalizing seen with
  | nil => simp [dedupBySymbolAux]
  | cons x rest ih =>
      by_cases hx : x.symbol ∈ seen
      · rw [dedupBySymbolAux, if_pos hx]
        exact (ih _).trans (Nat.le_succ _)
      · rw [dedupBySymbolAux, if_neg hx, List.length_cons]
        exact Nat.succ_le_succ (ih _)

/-- Deduplication keeps only symbols outside `seen` and yields pairwise
distinct symbols. -/
theorem dedupBySymbolAux_spec (seen : List String) (l : List Asset) :
    (∀ a ∈ dedupBySymbolAux seen l, a.symbol ∉ seen) ∧
    ((dedupBySymbolAux seen l).map Asset.symbol).Nodup := by
  induction l generalizing seen with
  | nil => simp [dedupBySymbolAux]
  | cons x rest ih =>
      by_cases hx : x.symbol ∈ seen
      · simpa [dedupBySymbolAux, hx] using ih seen
      · have ihx := ih (x.symbol :: seen)
        rw [dedupBySymbolAux, if_neg hx]
        constructor
        · intro a ha
          rcases List.mem_cons.mp ha with rfl | ha
          · exact hx
          · exact fun hmem => (ihx.1 a ha) (List.mem_cons_of_mem _ hmem)
        · rw [List.map_cons, List.nodup_cons]
          refine ⟨?_, ihx.2⟩
          intro hmem
          rcases List.mem_map.mp hmem with ⟨a, ha, hsym⟩
          exact (ihx.1 a ha) (by rw [hsym]; exact List.mem_cons_self _ _)

/-- Membership in the insertion-order set-spread deduplication. -/
theorem mem_dedupFirstAux [DecidableEq α] {seen : List α} {l : List α} {a : α} :
    a ∈ dedupFirstAux seen l ↔ a ∈ l ∧ a ∉ seen := by
  induction l generalizing seen with
  | nil => simp [dedupFirstAux]
  | cons x rest ih =>
      by_cases hx : x ∈ seen
      · rw [dedupFirstAux, if_pos hx, ih]
        constructor
        · rintro ⟨h1, h2⟩
          exact ⟨List.mem_cons_of_mem _ h1, h2⟩
        · rintro ⟨h1, h2⟩
          rcases List.mem_cons.mp h1 with rfl | h1
          · exact absurd hx h2
          · exact ⟨h1, h2⟩
      · rw [dedupFirstAux, if_neg hx]
        constructor
        · intro h
          rcases List.mem_cons.mp h with rfl | h
          · exact ⟨List.mem_cons_self _ _, hx⟩
          · rw [ih] at h
            refine ⟨List.mem_cons_of_mem _ h.1, fun hseen => h.2 (List.mem_cons_of_mem _ hseen)⟩
        · rintro ⟨h1, h2⟩
          rcases List.mem_cons.mp h1 with rfl | h1
          · exact List.mem_cons_self _ _
          · by_cases hax : a = x
            · subst hax
              exact List.mem_cons_self _ _
            · refine List.mem_cons_of_mem _ ?_
              rw [ih]
              exact ⟨h1, by simp [List.mem_cons, hax, h2]⟩

theorem mem_dedupFirst [DecidableEq α] {l : List α} {a : α} :
    a ∈ dedupFirst l ↔ a ∈ l := by
  simp [dedupFirst, mem_dedupFirstAux]

/-- The set-spread deduplication has no duplicates. -/
theorem nodup_dedupFirstAux [DecidableEq α] (seen : List α) (l : List α) :
    (dedupFirstAux seen l).Nodup := by
  induction l generalizing seen with
  | nil => simp [dedupFirstAux]
  | cons x rest ih =>
      by_cases hx : x ∈ seen
      · rw [dedupFirstAux, if_pos hx]
        exact ih seen
      · rw [dedupFirstAux, if_neg hx, List.nodup_cons]
        refine ⟨?_, ih _⟩
        intro hmem
        exact (mem_dedupFirstAux.mp hmem).2 (List.mem_cons_self _ _)

theorem nodup_dedupFirst [DecidableEq α] (l : List α) : (dedupFirst l).Nodup :=
  nodup_dedupFirstAux [] l

/-- Peeling the type-filter stage of `filterAssets`. -/
theorem mem_typeStage {l : List Asset} {selectedType : TypeFilter} {a : Asset}
    (h : a ∈ (if selectedType = TypeFilter.all then l
              else l.filter fun asset => typeMatches selectedType asset.type)) :
    a ∈ l ∧ (selectedType ≠ .all → typeMatches selectedType a.type = true) := by
  by_cases hs : selectedType = .all
  · rw [if_pos hs] at h
    exact ⟨h, fun hne => absurd hs hne⟩
  · rw [if_neg hs] at h
    exact ⟨(List.mem_filter.mp h).1, fun _ => (List.mem_filter.mp h).2⟩

/-- Peeling the min-price stage of `filterAssets`. -/
theorem mem_minPriceStage {l : List Asset} {minPrice : Option ℚ} {a : Asset}
    (h : a ∈ (match minPrice with
              | none => l
              | some minP => l.filter fun asset => decide (asset.currentPrice ≥ minP))) :
    a ∈ l ∧ ∀ p, minPrice = some p → p ≤ a.currentPrice := by
  cases minPrice with
  | none => exact ⟨h, fun p hp => nomatch hp⟩
  | some q =>
      have h' := List.mem_filter.mp h
      refine ⟨h'.1, ?_⟩
      rintro p hp
      injection hp with hq
      subst hq
      exact of_decide_eq_true h'.2

/-- Peeling the max-price stage of `filterAssets`. -/
theorem mem_maxPriceStage {l : List Asset} {maxPrice : Option ℚ} {a : Asset}
    (h : a ∈ (match maxPrice with
              | none => l
              | some maxP => l.filter fun asset => decide (asset.currentPrice ≤ maxP))) :
    a ∈ l ∧ ∀ p, maxPrice = some p → a.currentPrice ≤ p := by
  cases maxPrice with
  | none => exact ⟨h, fun p hp => nomatch hp⟩
  | some q =>
      have h' := List.mem_filter.mp h
      refine ⟨h'.1, ?_⟩
      rintro p hp
      injection hp with hq
      subst hq
      exact of_decide_eq_true h'.2

/-- Peeling the search-term stage of `filterAssets`; an empty search
term is contained in every string. -/
theorem mem_searchStage {l : List Asset} {searchTerm : String} {a : Asset}
    (h : a ∈ (if searchTerm = "" then l else l.filter (matchesSearch searchTerm))) :
    a ∈ l ∧ matchesSearch searchTerm a = true := by
  by_cases hs : searchTerm = ""
  · rw [if_pos hs] at h
    refine ⟨h, ?_⟩
    subst hs
    simp [matchesSearch, strIncludes, toLowerCase]
  · rw [if_neg hs] at h
    exact ⟨(List.mem_filter.mp h).1, (List.mem_filter.mp h).2⟩

/-- C6: `filterAssets` narrows the list: every output asset comes from
the input list, is not a tracked symbol, matches the selected type when
one is selected, has its price within the given bounds, and contains the
search term case-insensitively in its symbol or name; the output is
never longer than the input. -/
theorem filterAssets_narrows (assets : List Asset) (trackedSymbols : List String)
    (selectedType : TypeFilter) (minPrice maxPrice : Option ℚ) (searchTerm : String)
    (sortBy : SortKey) :
    (∀ a ∈ filterAssets assets trackedSymbols selectedType minPrice maxPrice searchTerm sortBy,
      a ∈ assets ∧ a.symbol ∉ trackedSymbols ∧
      (selectedType ≠ .all → typeMatches selectedType a.type = true) ∧
      (∀ p, minPrice = some p → p ≤ a.currentPrice) ∧
      (∀ p, maxPrice = some p → a.currentPrice ≤ p) ∧
      matchesSearch searchTerm a = true) ∧
    (filterAssets assets trackedSymbols selectedType minPrice maxPrice searchTerm sortBy).length ≤
      assets.length := by
  constructor
  · intro a ha
    rw [filterAssets.eq_def] at ha
    have ha := mem_of_mem_dedupBySymbolAux ha
    rw [List.mem_insertionSort] at ha
    obtain ⟨ha, hsearch⟩ := mem_searchStage ha
    obtain ⟨ha, hmax⟩ := mem_maxPriceStage ha
    obtain ⟨ha, hmin⟩ := mem_minPriceStage ha
    obtain ⟨ha, htype⟩ := mem_typeStage ha
    have ha' := List.mem_filter.mp ha
    refine ⟨ha'.1, ?_, htype, hmin, hmax, hsearch⟩
    intro hmem
    exact (of_decide_eq_true ha'.2) (mem_dedupFirst.mpr hmem)
  · rw [filterAssets.eq_def]
    refine (length_dedupBySymbolAux_le _ _).trans ?_
    rw [List.length_insertionSort]
    have l1 : ∀ (l : List Asset),
        (if searchTerm = "" then l else l.filter (matchesSearch searchTerm)).length ≤ l.length := by
      intro l
      by_cases hs : searchTerm = "" <;> simp [hs, List.length_filter_le]
    have l2 : ∀ (l : List Asset),
        (match maxPrice with
         | none => l
         | some maxP => l.filter fun asset => decide (asset.currentPrice ≤ maxP)).length ≤ l.length := by
      intro l
      cases maxPrice <;> simp [List.length_filter_le]
    have l3 : ∀ (l : List Asset),
        (match minPrice with
         | none => l
         | some minP => l.filter fun asset => decide (asset.currentPrice ≥ minP)).length ≤ l.length := by
      intro l
      cases minPrice <;> simp [List.length_filter_le]
    have l4 : ∀ (l : List Asset),
        (if selectedType = TypeFilter.all then l
         else l.filter fun asset => typeMatches selectedType asset.type).length ≤ l.length := by
      intro l
      by_cases hs : selectedType = TypeFilter.all <;> simp [hs, List.length_filter_le]
    exact ((((l1 _).trans (l2 _)).trans (l3 _)).trans (l4 _)).trans (List.length_filter_le _ _)

/-- C6 witness: the narrowing facts at a concrete singleton input. -/
theorem filterAssets_narrows_witness :
    sampleBareAsset ∈ [sampleBareAsset] ∧ sampleBareAsset.symbol ∉ ([] : List String) ∧
    (TypeFilter.all ≠ TypeFilter.all → typeMatches .all sampleBareAsset.type = true) ∧
    (∀ p, (none : Option ℚ) = some p → p ≤ sampleBareAsset.currentPrice) ∧
    (∀ p, (none : Option ℚ) = some p → sampleBareAsset.currentPrice ≤ p) ∧
    matchesSearch "" sampleBareAsset = true :=
  (filterAssets_narrows [sampleBareAsset] [] .all none none "" .popularity).1
    sampleBareAsset (by decide)

/-- No string equals itself extended by the backup suffix. -/
theorem self_ne_append_backup (s : String) : s ≠ s ++ "_backup" := by
  intro h
  have hlen := congrArg String.length h
  rw [String.length_append] at hlen
  have h7 : ("_backup" : String).length = 7 := rfl
  rw [h7] at hlen
  omega

/-- Loading right after saving returns the record that was written. -/
theorem loadUserData_saveUserData (store : Store) (userId : String)
    (data : PartialUserData) (now : ℤ) :
    loadUserData (saveUserData store userId data now) userId =
      some { userId := userId
             trackedAssets := data.trackedAssets.getD []
             preferences := data.preferences.getD []
             subscription := data.subscription
             alerts := data.alerts.getD []
             timestamp := now } := by
  rw [loadUserData, saveUserData]
  rw [setItem, setItem]
  rw [if_neg (self_ne_append_backup (getStorageKey userId)), if_pos rfl]

/-- C9: the GoogleDriveService save/load pair round-trips: immediately
after `saveUserData`, `loadUserData` returns a record whose
trackedAssets, preferences, subscription and alerts equal the saved
values, with the defaults [], {}, null, [] for omitted fields (assuming
localStorage operations succeed). -/
theorem loadUserData_after_saveUserData (store : Store) (userId : String)
    (data : PartialUserData) (now : ℤ) :
    ∃ u, loadUserData (saveUserData store userId data now) userId = some u ∧
      u.trackedAssets = data.trackedAssets.getD [] ∧
      u.preferences = data.preferences.getD [] ∧
      u.subscription = data.subscription ∧
      u.alerts = data.alerts.getD [] :=
  ⟨_, loadUserData_saveUserData store userId data now, rfl, rfl, rfl, rfl⟩

/-- C9 witness: the round trip from an empty store with all fields
omitted. -/
theorem loadUserData_after_saveUserData_witness :
    ∃ u, loadUserData (saveUserData (fun _ => none) "u1" emptyPartial 0) "u1" = some u ∧
      u.trackedAssets = emptyPartial.trackedAssets.getD [] ∧
      u.preferences = emptyPartial.preferences.getD [] ∧
      u.subscription = emptyPartial.subscription ∧
      u.alerts = emptyPartial.alerts.getD [] :=
  loadUserData_after_saveUserData (fun _ => none) "u1" emptyPartial 0

/-- C7: set-based deduplication in the UI code keeps symbols unique:
the lists produced by `fetchAssets` and `filterAssets` contain each
symbol at most once, and `syncTrackedAssets` stores a tracked-assets
list with no duplicates. -/
theorem symbol_uniqueness_by_dedup (list assets : List Asset) (trackedSymbols : List String)
    (selectedType : TypeFilter) (minPrice maxPrice : Option ℚ) (searchTerm : String)
    (sortBy : SortKey) (store : Store) (userId : String) (trackedAssets : List String)
    (now : ℤ) :
    ((fetchAssets list).map Asset.symbol).Nodup ∧
    ((filterAssets assets trackedSymbols selectedType minPrice maxPrice searchTerm
        sortBy).map Asset.symbol).Nodup ∧
    (∃ u, loadUserData (syncTrackedAssets store userId trackedAssets now) userId = some u ∧
      u.trackedAssets.Nodup) := by
  refine ⟨(dedupBySymbolAux_spec [] list).2, ?_, ?_⟩
  · rw [filterAssets.eq_def]
    exact (dedupBySymbolAux_spec [] _).2
  · rw [syncTrackedAssets]
    exact ⟨_, loadUserData_saveUserData _ _ _ _, nodup_dedupFirst trackedAssets⟩

/-- C7 witness: uniqueness evaluated on concrete duplicated inputs. -/
theorem symbol_uniqueness_by_dedup_witness :
    ((fetchAssets [sampleBareAsset, sampleBareAsset]).map Asset.symbol).Nodup ∧
    ((filterAssets [sampleBareAsset, sampleBareAsset] [] .all none none "" .popularity).map
        Asset.symbol).Nodup ∧
    (∃ u, loadUserData (syncTrackedAssets (fun _ => none) "u1" ["BTC", "BTC"] 0) "u1" = some u ∧
      u.trackedAssets.Nodup) :=
  symbol_uniqueness_by_dedup [sampleBareAsset, sampleBareAsset] [sampleBareAsset, sampleBareAsset]
    [] .all none none "" .popularity (fun _ => none) "u1" ["BTC", "BTC"] 0

/-- A successful `findTranslation` lookup is a table entry. -/
theorem mem_of_findTranslation {key : String} {entries : List (String × TranslationEntry)}
    {entry : TranslationEntry} (h : findTranslation key entries = some entry) :
    (key, entry) ∈ entries := by
  induction entries with
  | nil => cases h
  | cons p rest ih =>
      obtain ⟨k, v⟩ := p
      rw [findTranslation] at h
      by_cases hk : k = key
      · rw [if_pos hk] at h
        injection h with hv
        subst hk
        subst hv
        exact List.mem_cons_self _ _
      · rw [if_neg hk] at h
        exact List.mem_cons_of_mem _ (ih h)

set_option maxRecDepth 20000 in
/-- Every entry of the translation table has nonempty strings for both
languages, so the `|| key` fallback never masks a present entry. -/
theorem translations_values_nonempty :
    ∀ p ∈ translations, p.2.en ≠ "" ∧ p.2.sk ≠ "" := by decide

/-- C8: the translation function `t` is total with an identity
fallback: a key present in the table yields that key's string for the
selected language, and an absent key is returned unchanged. -/
theorem t_total_with_identity_fallback (language : Language) (key : String) :
    (∀ entry, findTranslation key translations = some entry →
        t language key = pickLanguage language entry) ∧
    (findTranslation key translations = none → t language key = key) := by
  constructor
  · intro entry hfind
    have hmem : (key, entry) ∈ translations := mem_of_findTranslation hfind
    have hne : pickLanguage language entry ≠ "" := by
      cases language
      · exact (translations_values_nonempty _ hmem).1
      · exact (translations_values_nonempty _ hmem).2
    rw [t, hfind]
    show (if pickLanguage language entry = "" then key else pickLanguage language entry) =
      pickLanguage language entry
    rw [if_neg hne]
  · intro hfind
    rw [t, hfind]

set_option maxRecDepth 20000 in
/-- C8 witness: a present key in each language, and an absent key. -/
theorem t_total_with_identity_fallback_witness :
    t .en "nav.dashboard" = "Dashboard" ∧ t .sk "nav.dashboard" = "Prehľad" ∧
    t .en "no.such.key" = "no.such.key" :=
  ⟨(t_total_with_identity_fallback .en "nav.dashboard").1 ⟨"Dashboard", "Prehľad"⟩ (by decide),
   (t_total_with_identity_fallback .sk "nav.dashboard").1 ⟨"Dashboard", "Prehľad"⟩ (by decide),
   (t_total_with_identity_fallback .en "no.such.key").2 (by decide)⟩

/-- One `monitorAlerts` iteration: the emitted update targets its own
alert, never writes `triggered := false`, and writes `triggered := true`
exactly when the threshold condition holds against the found asset. -/
theorem monitorStep_spec {assets : List Asset} {now : String} {alert : Alert}
    {p : Alert × AlertUpdate} (h : monitorStep assets now alert = some p) :
    p.1 = alert ∧ p.2.triggered ≠ some false ∧
    (p.2.triggered = some true ↔
      ∃ asset, assets.find? (fun a => a.symbol == alert.assetSymbol) = some asset ∧
        alertShouldTrigger asset alert = true) := by
  rw [monitorStep] at h
  split at h
  · cases h
  · rename_i asset hfind
    split at h
    · rename_i htrig
      injection h with hpair
      subst hpair
      refine ⟨rfl, by simp, ?_⟩
      exact ⟨fun _ => ⟨asset, hfind, htrig⟩, fun _ => rfl⟩
    · rename_i htrig
      injection h with hpair
      subst hpair
      refine ⟨rfl, by simp, ?_⟩
      constructor
      · intro hnone
        cases hnone
      · rintro ⟨asset2, hfind2, htrig2⟩
        rw [hfind] at hfind2
        injection hfind2 with ha2
        subst ha2
        exact absurd htrig2 htrig

/-- C10: `monitorAlerts` never un-triggers an alert: every issued update
targets an alert from the input list whose `triggered` flag is false,
never writes `triggered := false`, and writes `triggered := true`
exactly when the alert's threshold condition holds against its asset. -/
theorem monitorAlerts_never_untriggers (alerts : List Alert) (assets : List Asset)
    (now : String) :
    ∀ p ∈ monitorAlerts alerts assets now,
      p.1 ∈ alerts ∧ p.1.triggered = false ∧
      p.2.triggered ≠ some false ∧
      (p.2.triggered = some true ↔
        ∃ asset, assets.find? (fun a => a.symbol == p.1.assetSymbol) = some asset ∧
          alertShouldTrigger asset p.1 = true) := by
  intro p hp
  rw [monitorAlerts] at hp
  by_cases h0 : alerts.length = 0
  · rw [if_pos h0] at hp
    cases hp
  · rw [if_neg h0] at hp
    rcases List.mem_filterMap.mp hp with ⟨alert, hmem, hstep⟩
    have hfil := List.mem_filter.mp hmem
    obtain ⟨hp1, hnottrig, hiff⟩ := monitorStep_spec hstep
    rw [hp1]
    refine ⟨hfil.1, ?_, hnottrig, hiff⟩
    simpa using hfil.2

/-- A concrete untriggered alert matching `sampleBareAsset`. -/
def sampleAlert : Alert :=
  { _id := some "a1"
    userId := "u1"
    assetSymbol := "BTC"
    type := .price_up
    threshold := 10
    currentValue := 0
    triggered := false
    message := "m"
    createdAt := "2024-01-01"
    triggeredAt := none }

/-- The update `monitorAlerts` issues for `sampleAlert` against
`sampleBareAsset`. -/
def sampleAlertUpdate : AlertUpdate :=
  { triggered := some true
    currentValue := some 50000
    triggeredAt := some "t" }

/-- C10 witness: the no-untrigger facts at a concrete triggering run. -/
theorem monitorAlerts_never_untriggers_witness :
    sampleAlert ∈ [sampleAlert] ∧ sampleAlert.triggered = false ∧
    sampleAlertUpdate.triggered ≠ some false ∧
    (sampleAlertUpdate.triggered = some true ↔
      ∃ asset, [sampleBareAsset].find? (fun a => a.symbol == sampleAlert.assetSymbol) = some asset ∧
        alertShouldTrigger asset sampleAlert = true) :=
  monitorAlerts_never_untriggers [sampleAlert] [sampleBareAsset] "t"
    (sampleAlert, sampleAlertUpdate) (by decide)

end SentimentPulse
